import Mathlib

/-
Shallow embedding of the figgy configuration-file locator (src/src/lib.rs).

The library is a single component `ConfigFile<T>`: a filename, an ordered
list of candidate directories, an optional default value, and a
`create_if_missing` flag.  `location` scans the directories for the first
one whose `{directory}/{filename}` exists; `read` opens and decodes the
resolved file, falling back to `get_config_from_default` when the open
fails.

The filesystem is modelled as a record of per-path observations
(existence, open success, contents, create success, write success, and the
io errors the OS reports on failed create or open).  An opened file handle
is represented by the contents that reading it yields: in `read` no
filesystem mutation happens between `File::open` and `read_to_string`, so
capturing the contents at open time is faithful.  The serde codec is the
opaque capability the spec describes: `encode : T → String` (serde_json's
`to_string_pretty`, total for the config types in play) and
`decode : String → Option T` (`from_str`, `none` on malformed input, also
covering a failed `read_to_string`).  `File::write_all(..).unwrap()`
panics on a write error, so running `read` yields an `Outcome`: a value,
an io error, or a panic.
-/

namespace Figgy

/-- Error kinds, mirroring the subset of `std::io::ErrorKind` relevant here:
the library itself only ever constructs `NotFound`, while errors propagated
from the OS (failed `File::create` / `File::open`) may carry other kinds,
represented by `permissionDenied`. -/
inductive ErrorKind where
  | notFound
  | permissionDenied
deriving DecidableEq

/-- A `std::io::Error`: an error kind together with a message string. -/
structure Error where
  kind : ErrorKind
  msg : String
deriving DecidableEq

/-- Result of running `read`: a config value, an io error returned to the
caller, or a panic (the process aborts, as `.unwrap()` does on a write
failure). -/
inductive Outcome (T : Type) where
  | ok : T → Outcome T
  | err : Error → Outcome T
  | panic : Outcome T
deriving DecidableEq

/-- The filesystem, as the library observes it: per-path existence
(`Path::exists`), whether `File::open` succeeds and what reading the opened
file yields, whether `File::create` and `write_all` succeed, and the io
errors reported when create or open fail. -/
structure FS where
  exists_ : String → Bool
  openOk : String → Bool
  contents : String → String
  createOk : String → Bool
  writeOk : String → Bool
  createErr : String → Error
  openErr : String → Error

/-- Effect of a successful `File::create p`: the file at `p` now exists,
opens, and is truncated to empty contents.  No other path is touched. -/
def FS.create (fs : FS) (p : String) : FS :=
  { fs with
    exists_ := fun q => if q = p then true else fs.exists_ q
    openOk := fun q => if q = p then true else fs.openOk q
    contents := fun q => if q = p then "" else fs.contents q }

/-- Effect of a successful `write_all` of `s` at `p`: the contents at `p`
become `s`.  No other path is touched. -/
def FS.write (fs : FS) (p s : String) : FS :=
  { fs with contents := fun q => if q = p then s else fs.contents q }

/-- Pointwise agreement of two filesystems at one path, in every field. -/
def FS.agreeAt (fs fs' : FS) (q : String) : Prop :=
  fs.exists_ q = fs'.exists_ q ∧ fs.openOk q = fs'.openOk q ∧
  fs.contents q = fs'.contents q ∧ fs.createOk q = fs'.createOk q ∧
  fs.writeOk q = fs'.writeOk q ∧ fs.createErr q = fs'.createErr q ∧
  fs.openErr q = fs'.openErr q

instance : DecidablePred (fun q => FS.agreeAt fs fs' q) := fun _ => by
  unfold FS.agreeAt; infer_instance

/-- The serde codec boundary, opaque per the spec: `encode` is
`serde_json::to_string_pretty` and `decode` is `serde_json::from_str`. -/
structure Codec (T : Type) where
  encode : T → String
  decode : String → Option T

/-- The `ConfigFile<T>` struct: filename, ordered candidate directories,
the (unused) absolute filepath, the optional default, and the
create-if-missing flag. -/
structure ConfigFile (T : Type) where
  filename : String
  directories : List String
  absolute_filepath : Option String
  default_config : Option T
  create_if_missing : Bool

variable {T : Type}

/-- `ConfigFile::new(filename)`. -/
def ConfigFile.new (filename : String) : ConfigFile T :=
  { filename := filename
    directories := []
    absolute_filepath := none
    default_config := none
    create_if_missing := false }

/-- `ConfigFile::directory(d)`: pushes `d` onto the directory list. -/
def ConfigFile.directory (cfg : ConfigFile T) (d : String) : ConfigFile T :=
  { cfg with directories := cfg.directories ++ [d] }

/-- `ConfigFile::default(v)`: sets the default config. -/
def ConfigFile.default (cfg : ConfigFile T) (v : T) : ConfigFile T :=
  { cfg with default_config := some v }

/-- `ConfigFile::create_file_if_not_found()`: sets the create flag. -/
def ConfigFile.create_file_if_not_found (cfg : ConfigFile T) : ConfigFile T :=
  { cfg with create_if_missing := true }

/-- The for-loop in `location`: `dir` starts as `""` and becomes the first
directory whose `{directory}/{filename}` exists (then the loop breaks);
`""` doubles as the no-match sentinel. -/
def firstExisting (fs : FS) (filename : String) : List String → String
  | [] => ""
  | d :: ds =>
    if fs.exists_ (d ++ "/" ++ filename) then d
    else firstExisting fs filename ds

/-- `ConfigFile::location`: resolve the path.  After the scan, if the
directory list is non-empty and `dir` is still `""`, either fail with
`NotFound` or (when `create_if_missing`) use the first directory; the
result is `format!("\x7b\x7d/\x7b\x7d", dir, filename)`. -/
def ConfigFile.location (cfg : ConfigFile T) (fs : FS) : Except Error String :=
  let dir := firstExisting fs cfg.filename cfg.directories
  if !cfg.directories.isEmpty && dir == "" then
    if !cfg.create_if_missing then
      .error ⟨.notFound, "File was not found"⟩
    else
      .ok ((cfg.directories.headD "") ++ "/" ++ cfg.filename)
  else
    .ok (dir ++ "/" ++ cfg.filename)

/-- `ConfigFile::get_config_from_default(path)`: with a default configured
and a path available, `File::create(path)?` (propagating the create error),
encode, then `write_all(..).unwrap()` (panicking on a write failure);
finally return a clone of the default.  Without a default, error. -/
def ConfigFile.get_config_from_default (cfg : ConfigFile T) (c : Codec T)
    (path : Option String) (fs : FS) : Outcome T × FS :=
  match cfg.default_config with
  | some config =>
    match path with
    | some p =>
      if fs.createOk p then
        let fs1 := fs.create p
        let config_json := c.encode config
        if fs1.writeOk p then
          (.ok config, fs1.write p config_json)
        else
          (.panic, fs1)
      else
        (.err (fs.createErr p), fs)
    | none => (.ok config, fs)
  | none => (.err ⟨.notFound, "No default config was provided"⟩, fs)

/-- `ConfigFile::get_file`: resolve the location, then try to open it; the
pair of the path result and the file-handle result (a handle being the
contents reading it yields). -/
def ConfigFile.get_file (cfg : ConfigFile T) (fs : FS) :
    Except Error String × Except Error String :=
  match cfg.location fs with
  | .ok path =>
    if fs.openOk path then (.ok path, .ok (fs.contents path))
    else (.ok path, .error (fs.openErr path))
  | .error e => (.error e, .error ⟨.notFound, "Filename was invalid"⟩)

/-- `ConfigFile::read_file`: read the opened file to a string and decode;
with the handle modelled by its contents this is the codec's decode. -/
def ConfigFile.read_file (c : Codec T) (file : String) : Option T :=
  c.decode file

/-- `ConfigFile::get_config_from_file`: decode the file, collapsing any
read or decode failure into `NotFound`-kinded "File was invalid". -/
def ConfigFile.get_config_from_file (_cfg : ConfigFile T) (c : Codec T)
    (file : String) : Except Error T :=
  match ConfigFile.read_file c file with
  | some config_data => .ok config_data
  | none => .error ⟨.notFound, "File was invalid"⟩

/-- Lift an `Except` result into an `Outcome` (no panic involved). -/
def exceptToOutcome : Except Error T → Outcome T
  | .ok v => .ok v
  | .error e => .err e

/-- `ConfigFile::read`: get the file; on an open success decode it, on an
open (or resolution) failure fall back to the default, handing it
`filepath.ok()` as the optional write target. -/
def ConfigFile.read (cfg : ConfigFile T) (c : Codec T) (fs : FS) :
    Outcome T × FS :=
  match cfg.get_file fs with
  | (_, .ok file_ok) =>
    (exceptToOutcome (cfg.get_config_from_file c file_ok), fs)
  | (filepath, .error _) =>
    cfg.get_config_from_default c filepath.toOption fs

/-- The config type the repository's tests use: a name and an age. -/
structure PersonConfig where
  name : String
  age : Nat
deriving DecidableEq

/-- Pretty-printed JSON for a `PersonConfig`, mirroring
`serde_json::to_string_pretty` (two-space indentation, no trailing
newline). -/
def personEncode (p : PersonConfig) : String :=
  "\x7b\n  \"name\": \"" ++ p.name ++ "\",\n  \"age\": " ++ toString p.age ++ "\n\x7d"

/-- A concrete decoder inverting `personEncode` on the value the
repository's tests use, `none` elsewhere; a sample instantiation of the
opaque codec for concrete runs. -/
def personDecode (s : String) : Option PersonConfig :=
  if s = personEncode ⟨"Daniel", 32⟩ then some ⟨"Daniel", 32⟩ else none

/-- The sample codec instance for `PersonConfig`. -/
def personCodec : Codec PersonConfig :=
  { encode := personEncode, decode := personDecode }

/-- A filesystem in which no file exists, opens fail, and creates and
writes succeed; concrete scenarios are built by overriding fields. -/
def emptyFS : FS :=
  { exists_ := fun _ => false
    openOk := fun _ => false
    contents := fun _ => ""
    createOk := fun _ => true
    writeOk := fun _ => true
    createErr := fun _ => ⟨.notFound, "create failed"⟩
    openErr := fun _ => ⟨.notFound, "open failed"⟩ }

/-- The `PersonConfig` value appearing throughout the repository's tests. -/
def daniel : PersonConfig := ⟨"Daniel", 32⟩

theorem firstExisting_of_not_found (fs : FS) (f : String) (ds : List String)
    (h : ∀ d ∈ ds, fs.exists_ (d ++ "/" ++ f) = false) :
    firstExisting fs f ds = "" := by
  induction ds with
  | nil => rfl
  | cons d ds ih =>
    have hd : fs.exists_ (d ++ "/" ++ f) = false := h d (by simp)
    simp only [firstExisting, hd, Bool.false_eq_true, if_false]
    exact ih fun d' hd' => h d' (List.mem_cons_of_mem _ hd')

theorem firstExisting_append (fs : FS) (f : String) (pre post : List String)
    (d : String)
    (hpre : ∀ d' ∈ pre, fs.exists_ (d' ++ "/" ++ f) = false)
    (hd : fs.exists_ (d ++ "/" ++ f) = true) :
    firstExisting fs f (pre ++ d :: post) = d := by
  induction pre with
  | nil => simp [firstExisting, hd]
  | cons a pre ih =>
    have ha : fs.exists_ (a ++ "/" ++ f) = false := hpre a (by simp)
    simp only [List.cons_append, firstExisting, ha, Bool.false_eq_true, if_false]
    exact ih fun d' hd' => hpre d' (List.mem_cons_of_mem _ hd')

theorem location_of_sentinel (cfg : ConfigFile T) (fs : FS)
    (hne : cfg.directories ≠ [])
    (hfe : firstExisting fs cfg.filename cfg.directories = "") :
    cfg.location fs =
      if cfg.create_if_missing then
        .ok ((cfg.directories.headD "") ++ "/" ++ cfg.filename)
      else
        .error ⟨.notFound, "File was not found"⟩ := by
  obtain ⟨a, as, hd⟩ := List.exists_cons_of_ne_nil hne
  rw [hd] at hfe
  simp only [ConfigFile.location, hd, hfe]
  cases hc : cfg.create_if_missing <;> simp

theorem location_of_no_match (cfg : ConfigFile T) (fs : FS)
    (hne : cfg.directories ≠ [])
    (h : ∀ d ∈ cfg.directories, fs.exists_ (d ++ "/" ++ cfg.filename) = false) :
    cfg.location fs =
      if cfg.create_if_missing then
        .ok ((cfg.directories.headD "") ++ "/" ++ cfg.filename)
      else
        .error ⟨.notFound, "File was not found"⟩ :=
  location_of_sentinel cfg fs hne (firstExisting_of_not_found fs cfg.filename _ h)

theorem location_of_first_match (cfg : ConfigFile T) (fs : FS)
    (pre post : List String) (d : String)
    (hdirs : cfg.directories = pre ++ d :: post)
    (hpre : ∀ d' ∈ pre, fs.exists_ (d' ++ "/" ++ cfg.filename) = false)
    (hd : fs.exists_ (d ++ "/" ++ cfg.filename) = true)
    (hdne : d ≠ "") :
    cfg.location fs = .ok (d ++ "/" ++ cfg.filename) := by
  have hfe : firstExisting fs cfg.filename cfg.directories = d := by
    rw [hdirs]; exact firstExisting_append fs cfg.filename pre post d hpre hd
  simp [ConfigFile.location, hfe, hdne]

theorem read_of_open_ok (cfg : ConfigFile T) (c : Codec T) (fs : FS)
    (p : String) (hloc : cfg.location fs = .ok p)
    (hopen : fs.openOk p = true) :
    cfg.read c fs =
      (exceptToOutcome (cfg.get_config_from_file c (fs.contents p)), fs) := by
  unfold ConfigFile.read ConfigFile.get_file
  rw [hloc]
  simp [hopen]

theorem read_of_open_fail (cfg : ConfigFile T) (c : Codec T) (fs : FS)
    (p : String) (hloc : cfg.location fs = .ok p)
    (hopen : fs.openOk p = false) :
    cfg.read c fs = cfg.get_config_from_default c (some p) fs := by
  unfold ConfigFile.read ConfigFile.get_file
  rw [hloc]
  simp [hopen, Except.toOption]

theorem read_of_location_fail (cfg : ConfigFile T) (c : Codec T) (fs : FS)
    (e : Error) (hloc : cfg.location fs = .error e) :
    cfg.read c fs = cfg.get_config_from_default c none fs := by
  unfold ConfigFile.read ConfigFile.get_file
  rw [hloc]
  simp [Except.toOption]

theorem get_config_from_default_none_path (cfg : ConfigFile T) (c : Codec T)
    (fs : FS) (v : T) (hdef : cfg.default_config = some v) :
    cfg.get_config_from_default c none fs = (.ok v, fs) := by
  simp [ConfigFile.get_config_from_default, hdef]

theorem get_config_from_default_no_default (cfg : ConfigFile T) (c : Codec T)
    (path : Option String) (fs : FS) (hdef : cfg.default_config = none) :
    cfg.get_config_from_default c path fs =
      (.err ⟨.notFound, "No default config was provided"⟩, fs) := by
  simp [ConfigFile.get_config_from_default, hdef]

theorem get_config_from_default_none_path_snd (cfg : ConfigFile T)
    (c : Codec T) (fs : FS) :
    (cfg.get_config_from_default c none fs).2 = fs := by
  unfold ConfigFile.get_config_from_default
  cases cfg.default_config <;> simp

theorem agreeAt_refl (fs : FS) (q : String) : FS.agreeAt fs fs q := by
  unfold FS.agreeAt; exact ⟨rfl, rfl, rfl, rfl, rfl, rfl, rfl⟩

theorem agreeAt_trans {a b c : FS} {q : String} (h1 : FS.agreeAt a b q)
    (h2 : FS.agreeAt b c q) : FS.agreeAt a c q := by
  unfold FS.agreeAt at h1 h2 ⊢
  obtain ⟨x1, x2, x3, x4, x5, x6, x7⟩ := h1
  obtain ⟨y1, y2, y3, y4, y5, y6, y7⟩ := h2
  exact ⟨x1.trans y1, x2.trans y2, x3.trans y3, x4.trans y4,
    x5.trans y5, x6.trans y6, x7.trans y7⟩

theorem create_agreeAt (fs : FS) (p q : String) (h : q ≠ p) :
    FS.agreeAt (fs.create p) fs q := by
  unfold FS.agreeAt FS.create
  simp [h]

theorem write_agreeAt (fs : FS) (p s q : String) (h : q ≠ p) :
    FS.agreeAt (fs.write p s) fs q := by
  unfold FS.agreeAt FS.write
  simp [h]

theorem get_config_from_default_some (cfg : ConfigFile T) (c : Codec T)
    (p : String) (fs : FS) (v : T) (hdef : cfg.default_config = some v) :
    cfg.get_config_from_default c (some p) fs =
      if fs.createOk p then
        (if fs.writeOk p then (.ok v, (fs.create p).write p (c.encode v))
         else (.panic, fs.create p))
      else
        (.err (fs.createErr p), fs) := by
  simp only [ConfigFile.get_config_from_default, hdef]
  by_cases hc : fs.createOk p = true <;>
    by_cases hw : fs.writeOk p = true <;>
    simp [hc, hw, FS.create]

theorem get_config_from_default_frame (cfg : ConfigFile T) (c : Codec T)
    (p : String) (fs : FS) (q : String) (h : q ≠ p) :
    FS.agreeAt ((cfg.get_config_from_default c (some p) fs).2) fs q := by
  unfold ConfigFile.get_config_from_default
  cases cfg.default_config with
  | none => exact agreeAt_refl fs q
  | some v =>
    by_cases hc : fs.createOk p = true
    · by_cases hw : fs.writeOk p = true
      · simp only [hc, if_true, FS.create, hw, if_true]
        exact agreeAt_trans (write_agreeAt _ p _ q h) (create_agreeAt fs p q h)
      · simp only [hc, if_true, FS.create, eq_false_of_ne_true hw, if_false]
        exact create_agreeAt fs p q h
    · simp only [eq_false_of_ne_true hc, if_false]
      exact agreeAt_refl fs q

/-
Concrete fixtures for counterexamples and witnesses.
-/

/-- Locator for `person.json` under `tests` with a default configured. -/
def cfgPerson : ConfigFile PersonConfig :=
  { filename := "person.json"
    directories := ["tests"]
    absolute_filepath := none
    default_config := some daniel
    create_if_missing := false }

/-- Locator for an absent `fake_file.json` under `tests`, no default. -/
def cfgFake : ConfigFile PersonConfig :=
  { filename := "fake_file.json"
    directories := ["tests"]
    absolute_filepath := none
    default_config := none
    create_if_missing := false }

/-- A filesystem where `tests/person.json` exists, opens, and holds
contents the codec cannot decode. -/
def fsGarbage : FS :=
  { emptyFS with
    exists_ := fun q => q == "tests/person.json"
    openOk := fun q => q == "tests/person.json"
    contents := fun q => if q == "tests/person.json" then "garbage" else "" }

/-- C1, counterexample: with `tests/person.json` present and openable but
undecodable and the default `daniel` configured, `read` does not return the
default; it returns the invalid-file error. -/
theorem c1_counterexample :
    (cfgPerson.read personCodec fsGarbage).1 ≠ .ok daniel ∧
    (cfgPerson.read personCodec fsGarbage).1 =
      .err ⟨.notFound, "File was invalid"⟩ :=
  ⟨by decide, rfl⟩

/-- C1, amended: if the resolved file opens but its contents fail to
decode, `read` returns the invalid-file error (kind `NotFound`, message
"File was invalid") and leaves the filesystem untouched, even when a
default is configured; the default is consulted only when the open itself
fails or path resolution fails. -/
theorem c1_amended (cfg : ConfigFile T) (c : Codec T) (fs : FS) (p : String)
    (hloc : cfg.location fs = .ok p) (hopen : fs.openOk p = true)
    (hdec : c.decode (fs.contents p) = none) :
    cfg.read c fs = (.err ⟨.notFound, "File was invalid"⟩, fs) := by
  rw [read_of_open_ok cfg c fs p hloc hopen]
  simp [ConfigFile.get_config_from_file, ConfigFile.read_file, hdec,
    exceptToOutcome]

/-- C1, witness: the amended statement evaluated on the garbage-file
scenario. -/
theorem c1_witness :
    cfgPerson.location fsGarbage = .ok "tests/person.json" ∧
    fsGarbage.openOk "tests/person.json" = true ∧
    personCodec.decode (fsGarbage.contents "tests/person.json") = none ∧
    cfgPerson.read personCodec fsGarbage =
      (.err ⟨.notFound, "File was invalid"⟩, fsGarbage) :=
  ⟨rfl, rfl, rfl,
    c1_amended cfgPerson personCodec fsGarbage "tests/person.json" rfl rfl rfl⟩

/-- C2, counterexample: with `tests` listed, no file, no create flag, and
no default, `read` does not fail with the not-found message that
`location` produces; it fails with the no-default-provided message. -/
theorem c2_counterexample :
    (cfgFake.read personCodec emptyFS).1 ≠
      .err ⟨.notFound, "File was not found"⟩ ∧
    (cfgFake.read personCodec emptyFS).1 =
      .err ⟨.notFound, "No default config was provided"⟩ :=
  ⟨by decide, rfl⟩

/-- C2, amended: with a non-empty directory list, no candidate file,
`create_if_missing` false, and no default, `location` fails with the
not-found error ("File was not found"), while `read` fails with an error
of the same `NotFound` kind but carrying the no-default message ("No
default config was provided"); neither defaults to an arbitrary path, and
the filesystem is untouched. -/
theorem c2_amended (cfg : ConfigFile T) (c : Codec T) (fs : FS)
    (hne : cfg.directories ≠ [])
    (hnone : ∀ d ∈ cfg.directories,
      fs.exists_ (d ++ "/" ++ cfg.filename) = false)
    (hcreate : cfg.create_if_missing = false)
    (hdef : cfg.default_config = none) :
    cfg.location fs = .error ⟨.notFound, "File was not found"⟩ ∧
    cfg.read c fs =
      (.err ⟨.notFound, "No default config was provided"⟩, fs) := by
  have hloc := location_of_no_match cfg fs hne hnone
  rw [hcreate] at hloc
  simp only [Bool.false_eq_true, if_false] at hloc
  refine ⟨hloc, ?_⟩
  rw [read_of_location_fail cfg c fs _ hloc]
  exact get_config_from_default_no_default cfg c none fs hdef

/-- C2, witness: the amended statement evaluated on the fake-file
scenario. -/
theorem c2_witness :
    cfgFake.location emptyFS = .error ⟨.notFound, "File was not found"⟩ ∧
    cfgFake.read personCodec emptyFS =
      (.err ⟨.notFound, "No default config was provided"⟩, emptyFS) :=
  c2_amended cfgFake personCodec emptyFS (by decide) (by decide) rfl rfl

/-- A filesystem where `tests/person.json` registers as existing but
cannot be opened, and `File::create` fails with a permission error. -/
def fsNoCreate : FS :=
  { emptyFS with
    exists_ := fun q => q == "tests/person.json"
    createOk := fun _ => false
    createErr := fun _ => ⟨.permissionDenied, "Permission denied"⟩ }

/-- A filesystem where `tests/person.json` registers as existing but
cannot be opened, creates succeed, and `write_all` fails. -/
def fsNoWrite : FS :=
  { emptyFS with
    exists_ := fun q => q == "tests/person.json"
    writeOk := fun _ => false }

/-- C3, counterexample: falling back to the default `daniel` with the
resolved path `tests/person.json` available, a failed `File::create`
makes `read` return that error instead of the default, and a failed
`write_all` makes `read` panic — so a create/write failure does prevent
returning the default, and an input does make the component abort. -/
theorem c3_counterexample :
    ((cfgPerson.read personCodec fsNoCreate).1 ≠ .ok daniel ∧
      (cfgPerson.read personCodec fsNoCreate).1 =
        .err ⟨.permissionDenied, "Permission denied"⟩) ∧
    (cfgPerson.read personCodec fsNoWrite).1 = .panic :=
  ⟨⟨by decide, rfl⟩, rfl⟩

/-- C3, amended: when `read` falls back to the default with a resolved
path available (open failed, default configured), a `File::create`
failure is propagated as an error — the default is not returned — a
`write_all` failure panics, and only when both create and write succeed
is the default returned. -/
theorem c3_amended (cfg : ConfigFile T) (c : Codec T) (fs : FS)
    (p : String) (v : T)
    (hloc : cfg.location fs = .ok p) (hopen : fs.openOk p = false)
    (hdef : cfg.default_config = some v) :
    (fs.createOk p = false →
      cfg.read c fs = (.err (fs.createErr p), fs)) ∧
    (fs.createOk p = true → fs.writeOk p = false →
      cfg.read c fs = (.panic, fs.create p)) ∧
    (fs.createOk p = true → fs.writeOk p = true →
      cfg.read c fs = (.ok v, (fs.create p).write p (c.encode v))) := by
  rw [read_of_open_fail cfg c fs p hloc hopen,
    get_config_from_default_some cfg c p fs v hdef]
  refine ⟨fun hc => by simp [hc], fun hc hw => by simp [hc, hw],
    fun hc hw => by simp [hc, hw]⟩

/-- C3, witness: the amended statement evaluated on the failed-create
scenario. -/
theorem c3_witness :
    cfgPerson.location fsNoCreate = .ok "tests/person.json" ∧
    fsNoCreate.openOk "tests/person.json" = false ∧
    fsNoCreate.createOk "tests/person.json" = false ∧
    cfgPerson.read personCodec fsNoCreate =
      (.err ⟨.permissionDenied, "Permission denied"⟩, fsNoCreate) :=
  ⟨rfl, rfl, rfl,
    (c3_amended cfgPerson personCodec fsNoCreate "tests/person.json" daniel
      rfl rfl rfl).1 rfl⟩

/-- A filesystem where `a/p.json` exists and opens but holds undecodable
contents, while `b/p.json` exists, opens, and decodes to `daniel`. -/
def fsTwoDirs : FS :=
  { emptyFS with
    exists_ := fun q => q == "a/p.json" || q == "b/p.json"
    openOk := fun q => q == "a/p.json" || q == "b/p.json"
    contents := fun q =>
      if q == "b/p.json" then personEncode daniel else "bad" }

/-- Locator for `p.json` searched in `a` then `b`, with a default. -/
def cfgTwoDirs : ConfigFile PersonConfig :=
  { filename := "p.json"
    directories := ["a", "b"]
    absolute_filepath := none
    default_config := some daniel
    create_if_missing := false }

/-- C4, counterexample: `b` is the first directory whose joined path
exists and decodes successfully (`a/p.json` exists but does not decode),
yet `read` does not return `b`'s decoded contents: it stops at `a` and
returns the invalid-file error. -/
theorem c4_counterexample :
    fsTwoDirs.exists_ ("a/p.json") = true ∧
    personCodec.decode (fsTwoDirs.contents ("a/p.json")) = none ∧
    fsTwoDirs.exists_ ("b/p.json") = true ∧
    personCodec.decode (fsTwoDirs.contents ("b/p.json")) = some daniel ∧
    (cfgTwoDirs.read personCodec fsTwoDirs).1 ≠ .ok daniel ∧
    (cfgTwoDirs.read personCodec fsTwoDirs).1 =
      .err ⟨.notFound, "File was invalid"⟩ :=
  ⟨rfl, rfl, rfl, rfl, by decide, rfl⟩

/-- C4, amended: if directory `d` is the first whose joined path exists
(all earlier candidates are absent) and `d` is not the empty string, and
the file at `d`'s join opens and decodes to `v`, then `read` returns `v`
and leaves the filesystem untouched — directories after `d` and any
configured default have no effect. -/
theorem c4_amended (cfg : ConfigFile T) (c : Codec T) (fs : FS)
    (pre post : List String) (d : String) (v : T)
    (hdirs : cfg.directories = pre ++ d :: post)
    (hpre : ∀ d' ∈ pre, fs.exists_ (d' ++ "/" ++ cfg.filename) = false)
    (hd : fs.exists_ (d ++ "/" ++ cfg.filename) = true)
    (hdne : d ≠ "")
    (hopen : fs.openOk (d ++ "/" ++ cfg.filename) = true)
    (hdec : c.decode (fs.contents (d ++ "/" ++ cfg.filename)) = some v) :
    cfg.read c fs = (.ok v, fs) := by
  have hloc := location_of_first_match cfg fs pre post d hdirs hpre hd hdne
  rw [read_of_open_ok cfg c fs _ hloc hopen]
  simp [ConfigFile.get_config_from_file, ConfigFile.read_file, hdec,
    exceptToOutcome]

/-- A filesystem where only `tests/person.json` exists, opens, and holds
the pretty-printed encoding of `daniel`. -/
def fsPerson : FS :=
  { emptyFS with
    exists_ := fun q => q == "tests/person.json"
    openOk := fun q => q == "tests/person.json"
    contents := fun q =>
      if q == "tests/person.json" then personEncode daniel else "" }

/-- Locator searching `missing`, then `tests`, then `later`, with a
different default configured, to exhibit precedence. -/
def cfgSearch : ConfigFile PersonConfig :=
  { filename := "person.json"
    directories := ["missing", "tests", "later"]
    absolute_filepath := none
    default_config := some ⟨"Other", 1⟩
    create_if_missing := false }

/-- C4, witness: the amended statement evaluated on a three-directory
search where the second directory holds the valid file. -/
theorem c4_witness :
    cfgSearch.directories = ["missing"] ++ "tests" :: ["later"] ∧
    fsPerson.exists_ ("tests" ++ "/" ++ cfgSearch.filename) = true ∧
    cfgSearch.read personCodec fsPerson = (.ok daniel, fsPerson) :=
  ⟨rfl, rfl,
    c4_amended cfgSearch personCodec fsPerson ["missing"] ["later"] "tests"
      daniel rfl (by decide) rfl (by decide) rfl rfl⟩

/-- Locator for `create_file.json` under `tests` with the create flag set
and the default `daniel`, as in the repository's write-defaults test. -/
def cfgCreate : ConfigFile PersonConfig :=
  { filename := "create_file.json"
    directories := ["tests"]
    absolute_filepath := none
    default_config := some daniel
    create_if_missing := true }

/-- C5, confirmed: with `create_if_missing` set, a default `v`, no
candidate file existing (and the target not openable, create and write
succeeding), `read` returns `v` and leaves a file at
`first_directory/filename` that exists and whose contents are
`encode v`; when the codec round-trips (`decode (encode v) = some v`),
decoding that file yields `v` again. -/
theorem c5_confirmed (cfg : ConfigFile T) (c : Codec T) (fs : FS) (v : T)
    (hne : cfg.directories ≠ [])
    (hnone : ∀ d ∈ cfg.directories,
      fs.exists_ (d ++ "/" ++ cfg.filename) = false)
    (hcreate : cfg.create_if_missing = true)
    (hdef : cfg.default_config = some v)
    (hopen : fs.openOk (cfg.directories.headD "" ++ "/" ++ cfg.filename)
      = false)
    (hcok : fs.createOk (cfg.directories.headD "" ++ "/" ++ cfg.filename)
      = true)
    (hwok : fs.writeOk (cfg.directories.headD "" ++ "/" ++ cfg.filename)
      = true)
    (hrt : c.decode (c.encode v) = some v) :
    (cfg.read c fs).1 = .ok v ∧
    ((cfg.read c fs).2).exists_
      (cfg.directories.headD "" ++ "/" ++ cfg.filename) = true ∧
    ((cfg.read c fs).2).contents
      (cfg.directories.headD "" ++ "/" ++ cfg.filename) = c.encode v ∧
    c.decode (((cfg.read c fs).2).contents
      (cfg.directories.headD "" ++ "/" ++ cfg.filename)) = some v := by
  have hloc := location_of_no_match cfg fs hne hnone
  rw [hcreate] at hloc
  simp only [if_true] at hloc
  generalize hgen : cfg.directories.headD "" ++ "/" ++ cfg.filename = p
    at hloc hopen hcok hwok ⊢
  rw [read_of_open_fail cfg c fs _ hloc hopen,
    get_config_from_default_some cfg c _ fs v hdef]
  simp [hcok, hwok, FS.write, FS.create, hrt]

/-- C5, witness: the confirmed statement evaluated on the
create-file scenario from the repository's tests, under the sample
codec. -/
theorem c5_witness :
    cfgCreate.create_if_missing = true ∧
    personCodec.decode (personCodec.encode daniel) = some daniel ∧
    (cfgCreate.read personCodec emptyFS).1 = .ok daniel ∧
    ((cfgCreate.read personCodec emptyFS).2).exists_
      (cfgCreate.directories.headD "" ++ "/" ++ cfgCreate.filename) = true ∧
    ((cfgCreate.read personCodec emptyFS).2).contents
      (cfgCreate.directories.headD "" ++ "/" ++ cfgCreate.filename) =
      personCodec.encode daniel := by
  have h := c5_confirmed cfgCreate personCodec emptyFS daniel (by decide)
    (by decide) rfl rfl rfl rfl rfl rfl
  exact ⟨rfl, rfl, h.1, h.2.1, h.2.2.1⟩

/-- Locator for an absent `fake_file.json` under `tests` with the default
`daniel` and the create flag unset, as in the repository's
default-fallback test. -/
def cfgFakeDefault : ConfigFile PersonConfig :=
  { filename := "fake_file.json"
    directories := ["tests"]
    absolute_filepath := none
    default_config := some daniel
    create_if_missing := false }

/-- C6, confirmed: with a non-empty directory list, no candidate file,
`create_if_missing` false, and a default `v`, `read` returns `v` and the
filesystem is returned unchanged — no write occurs. -/
theorem c6_confirmed (cfg : ConfigFile T) (c : Codec T) (fs : FS) (v : T)
    (hne : cfg.directories ≠ [])
    (hnone : ∀ d ∈ cfg.directories,
      fs.exists_ (d ++ "/" ++ cfg.filename) = false)
    (hcreate : cfg.create_if_missing = false)
    (hdef : cfg.default_config = some v) :
    cfg.read c fs = (.ok v, fs) := by
  have hloc := location_of_no_match cfg fs hne hnone
  rw [hcreate] at hloc
  simp only [Bool.false_eq_true, if_false] at hloc
  rw [read_of_location_fail cfg c fs _ hloc]
  exact get_config_from_default_none_path cfg c fs v hdef

/-- C6, witness: the confirmed statement evaluated on the fallback
scenario from the repository's tests (absent `tests/fake_file.json`,
default `daniel`, create flag unset). -/
theorem c6_witness :
    cfgFakeDefault.create_if_missing = false ∧
    cfgFakeDefault.read personCodec emptyFS = (.ok daniel, emptyFS) :=
  ⟨rfl, c6_confirmed cfgFakeDefault personCodec emptyFS daniel (by decide)
    (by decide) rfl rfl⟩

/-- C7, confirmed: `read` touches at most the resolved path.  If path
resolution fails, the filesystem is returned unchanged; if it resolves to
`p`, every path other than `p` is unchanged in every respect, and when
the open at `p` succeeds (in particular when open plus decode succeed) no
write happens at all — the filesystem is returned unchanged. -/
theorem c7_confirmed (cfg : ConfigFile T) (c : Codec T) (fs : FS) :
    (∀ e, cfg.location fs = .error e → (cfg.read c fs).2 = fs) ∧
    (∀ p, cfg.location fs = .ok p →
      (∀ q, q ≠ p → FS.agreeAt ((cfg.read c fs).2) fs q) ∧
      (fs.openOk p = true → (cfg.read c fs).2 = fs)) := by
  constructor
  · intro e he
    rw [read_of_location_fail cfg c fs e he]
    exact get_config_from_default_none_path_snd cfg c fs
  · intro p hp
    constructor
    · intro q hq
      by_cases ho : fs.openOk p = true
      · rw [read_of_open_ok cfg c fs p hp ho]
        exact agreeAt_refl fs q
      · rw [read_of_open_fail cfg c fs p hp (eq_false_of_ne_true ho)]
        exact get_config_from_default_frame cfg c p fs q hq
    · intro ho
      rw [read_of_open_ok cfg c fs p hp ho]

/-- C7, witness: on the create-file scenario (which writes at the
resolved path `tests/create_file.json`), an unrelated path is untouched
in every respect. -/
theorem c7_witness :
    cfgCreate.location emptyFS = .ok "tests/create_file.json" ∧
    ("other.txt" : String) ≠ "tests/create_file.json" ∧
    FS.agreeAt ((cfgCreate.read personCodec emptyFS).2) emptyFS
      "other.txt" :=
  ⟨rfl, by decide,
    ((c7_confirmed cfgCreate personCodec emptyFS).2 "tests/create_file.json"
      rfl).1 "other.txt" (by decide)⟩

/-- Locator with an empty directory list, built through the source's
constructor. -/
def cfgEmptyDirs : ConfigFile PersonConfig := ConfigFile.new "f.json"

/-- C8, confirmed: when no candidate file exists, `location` succeeds in
exactly two cases — an empty directory list yields the empty-prefix join
`"/" ++ filename`, and a non-empty list with `create_if_missing` true
yields the first directory's join — while a non-empty list with the flag
false fails with the not-found error. -/
theorem c8_confirmed (cfg : ConfigFile T) (fs : FS)
    (hnone : ∀ d ∈ cfg.directories,
      fs.exists_ (d ++ "/" ++ cfg.filename) = false) :
    (cfg.directories = [] → cfg.location fs = .ok ("/" ++ cfg.filename)) ∧
    (cfg.directories ≠ [] → cfg.create_if_missing = true →
      cfg.location fs =
        .ok (cfg.directories.headD "" ++ "/" ++ cfg.filename)) ∧
    (cfg.directories ≠ [] → cfg.create_if_missing = false →
      cfg.location fs = .error ⟨.notFound, "File was not found"⟩) := by
  refine ⟨fun hd => ?_, fun hne hc => ?_, fun hne hc => ?_⟩
  · rw [show ("/" ++ cfg.filename) = ("" : String) ++ "/" ++ cfg.filename
      from by rw [show (("" : String) ++ "/") = "/" from rfl]]
    simp [ConfigFile.location, hd, firstExisting]
  · have hloc := location_of_no_match cfg fs hne hnone
    rw [hc] at hloc
    simpa using hloc
  · have hloc := location_of_no_match cfg fs hne hnone
    rw [hc] at hloc
    simpa using hloc

/-- C8, witness: the confirmed statement evaluated with an empty
directory list, yielding the empty-prefix join. -/
theorem c8_witness :
    cfgEmptyDirs.directories = [] ∧
    cfgEmptyDirs.location emptyFS = .ok ("/" ++ "f.json") :=
  ⟨rfl, (c8_confirmed cfgEmptyDirs emptyFS (by decide)).1 rfl⟩

/-- Locator whose single candidate directory is the empty string. -/
def cfgRoot : ConfigFile PersonConfig :=
  { filename := "f.json"
    directories := [""]
    absolute_filepath := none
    default_config := none
    create_if_missing := false }

/-- A filesystem where only `/f.json` exists. -/
def fsRoot : FS :=
  { emptyFS with exists_ := fun q => q == "/f.json" }

/-- C9, confirmed: when the first directory whose join exists is the
empty string (so the existing file is at `"/" ++ filename`), `location`
behaves exactly as if no candidate existed: with `create_if_missing`
false it fails with the not-found error, and with the flag true it
returns the first directory's join — the empty matched name is
indistinguishable from the no-match sentinel. -/
theorem c9_confirmed (cfg : ConfigFile T) (fs : FS) (pre post : List String)
    (hdirs : cfg.directories = pre ++ "" :: post)
    (hpre : ∀ d' ∈ pre, fs.exists_ (d' ++ "/" ++ cfg.filename) = false)
    (hroot : fs.exists_ ("" ++ "/" ++ cfg.filename) = true) :
    (cfg.create_if_missing = false →
      cfg.location fs = .error ⟨.notFound, "File was not found"⟩) ∧
    (cfg.create_if_missing = true →
      cfg.location fs =
        .ok (cfg.directories.headD "" ++ "/" ++ cfg.filename)) := by
  have hne : cfg.directories ≠ [] := by rw [hdirs]; simp
  have hfe : firstExisting fs cfg.filename cfg.directories = "" := by
    rw [hdirs]
    exact firstExisting_append fs cfg.filename pre post "" hpre hroot
  have hloc := location_of_sentinel cfg fs hne hfe
  constructor
  · intro hc; rw [hc] at hloc; simpa using hloc
  · intro hc; rw [hc] at hloc; simpa using hloc

/-- C9, witness: the confirmed statement evaluated on a locator whose
only directory is `""` while `/f.json` exists. -/
theorem c9_witness :
    fsRoot.exists_ ("" ++ "/" ++ cfgRoot.filename) = true ∧
    cfgRoot.location fsRoot = .error ⟨.notFound, "File was not found"⟩ :=
  ⟨rfl, (c9_confirmed cfgRoot fsRoot [] [] rfl (by decide) rfl).1 rfl⟩

theorem location_error_shape (cfg : ConfigFile T) (fs : FS) (e : Error)
    (h : cfg.location fs = .error e) :
    e = ⟨.notFound, "File was not found"⟩ := by
  simp only [ConfigFile.location] at h
  split at h
  · split at h
    · exact (Except.error.inj h).symm
    · exact absurd h (by simp)
  · exact absurd h (by simp)

theorem get_config_from_default_err_kind (cfg : ConfigFile T) (c : Codec T)
    (path : Option String) (fs : FS) (e : Error)
    (hcr : ∀ p, (fs.createErr p).kind = .notFound)
    (h : (cfg.get_config_from_default c path fs).1 = .err e) :
    e.kind = .notFound := by
  unfold ConfigFile.get_config_from_default at h
  cases hd : cfg.default_config with
  | none =>
    rw [hd] at h
    simp only at h
    rw [← Outcome.err.inj h]
  | some v =>
    rw [hd] at h
    cases path with
    | none => simp at h
    | some p =>
      simp only at h
      by_cases hc : fs.createOk p = true
      · by_cases hw : (fs.create p).writeOk p = true
        · simp [hc, hw] at h
        · simp [hc, hw] at h
      · simp only [eq_false_of_ne_true hc, Bool.false_eq_true, if_false]
          at h
        rw [← Outcome.err.inj h]
        exact hcr p

theorem get_config_from_file_err_kind (cfg : ConfigFile T) (c : Codec T)
    (s : String) (e : Error)
    (h : cfg.get_config_from_file c s = .error e) :
    e.kind = .notFound := by
  unfold ConfigFile.get_config_from_file at h
  cases hd : ConfigFile.read_file c s with
  | none =>
    rw [hd] at h
    rw [← Except.error.inj h]
  | some v => rw [hd] at h; exact absurd h (by simp)

/-- A filesystem where `etc/app.json` registers as existing but cannot be
opened, and creating it fails with a permission error. -/
def fsPermDenied : FS :=
  { emptyFS with
    exists_ := fun q => q == "etc/app.json"
    createOk := fun _ => false
    createErr := fun _ => ⟨.permissionDenied, "Permission denied"⟩ }

/-- Locator for `app.json` under `etc` with a default configured. -/
def cfgApp : ConfigFile PersonConfig :=
  { filename := "app.json"
    directories := ["etc"]
    absolute_filepath := none
    default_config := some daniel
    create_if_missing := false }

/-- C10, counterexample: `read` surfaces an error of kind
`PermissionDenied` (the io error propagated from a failed `File::create`
by the `?` operator), so not every error at the public interface carries
the kind `NotFound`. -/
theorem c10_counterexample :
    (cfgApp.read personCodec fsPermDenied).1 =
      .err ⟨.permissionDenied, "Permission denied"⟩ ∧
    ErrorKind.permissionDenied ≠ ErrorKind.notFound :=
  ⟨rfl, by decide⟩

/-- C10, amended: every error the component itself constructs — in
`location`, both components of `get_file`, `get_config_from_default`,
`get_config_from_file`, and `read` — carries the kind `NotFound`, the
conditions being distinguished only by their message strings; errors
propagated from the filesystem (failed `File::create` or `File::open`)
pass through with their original kinds, so under a filesystem whose
reported errors are `NotFound`-kinded, every error at the public
interface is `NotFound`-kinded. -/
theorem c10_amended (cfg : ConfigFile T) (c : Codec T) (fs : FS)
    (hcr : ∀ p, (fs.createErr p).kind = .notFound)
    (hop : ∀ p, (fs.openErr p).kind = .notFound) :
    (∀ e, cfg.location fs = .error e → e.kind = .notFound) ∧
    (∀ e, (cfg.get_file fs).1 = .error e → e.kind = .notFound) ∧
    (∀ e, (cfg.get_file fs).2 = .error e → e.kind = .notFound) ∧
    (∀ path e, (cfg.get_config_from_default c path fs).1 = .err e →
      e.kind = .notFound) ∧
    (∀ s e, cfg.get_config_from_file c s = .error e → e.kind = .notFound) ∧
    (∀ e, (cfg.read c fs).1 = .err e → e.kind = .notFound) := by
  refine ⟨fun e he => ?_, fun e he => ?_, fun e he => ?_,
    fun path e he => get_config_from_default_err_kind cfg c path fs e hcr he,
    fun s e he => get_config_from_file_err_kind cfg c s e he,
    fun e he => ?_⟩
  · rw [location_error_shape cfg fs e he]
  · unfold ConfigFile.get_file at he
    cases hloc : cfg.location fs with
    | ok p =>
      rw [hloc] at he
      by_cases ho : fs.openOk p = true <;> simp [ho] at he
    | error e' =>
      rw [hloc] at he
      simp only at he
      rw [← Except.error.inj he]
      exact (location_error_shape cfg fs e' hloc) ▸ rfl
  · unfold ConfigFile.get_file at he
    cases hloc : cfg.location fs with
    | ok p =>
      rw [hloc] at he
      by_cases ho : fs.openOk p = true
      · simp [ho] at he
      · simp only [eq_false_of_ne_true ho, Bool.false_eq_true, if_false]
          at he
        rw [← Except.error.inj he]
        exact hop p
    | error e' =>
      rw [hloc] at he
      simp only at he
      rw [← Except.error.inj he]
  · cases hloc : cfg.location fs with
    | ok p =>
      by_cases ho : fs.openOk p = true
      · rw [read_of_open_ok cfg c fs p hloc ho] at he
        simp only at he
        cases hf : cfg.get_config_from_file c (fs.contents p) with
        | ok v => rw [hf] at he; exact absurd he (by simp [exceptToOutcome])
        | error e' =>
          rw [hf] at he
          simp only [exceptToOutcome] at he
          rw [← Outcome.err.inj he]
          exact get_config_from_file_err_kind cfg c (fs.contents p) e' hf
      · rw [read_of_open_fail cfg c fs p hloc (eq_false_of_ne_true ho)] at he
        exact get_config_from_default_err_kind cfg c (some p) fs e hcr he
    | error e' =>
      rw [read_of_location_fail cfg c fs e' hloc] at he
      exact get_config_from_default_err_kind cfg c none fs e hcr he

/-- C10, witness: the amended statement evaluated on the no-match,
no-default scenario over a filesystem whose reported errors are all
`NotFound`-kinded. -/
theorem c10_witness :
    (cfgFake.read personCodec emptyFS).1 =
      .err ⟨.notFound, "No default config was provided"⟩ ∧
    (⟨.notFound, "No default config was provided"⟩ : Error).kind =
      .notFound :=
  ⟨rfl,
    (c10_amended cfgFake personCodec emptyFS (fun _ => rfl)
      (fun _ => rfl)).2.2.2.2.2 _ rfl⟩

end Figgy
